import Mathlib

/-!
Verification development for the Vulkan GPU tensor storage layer
(`aten/src/ATen/native/vulkan/ops/Tensor.h`): the `vTensorStorage` /
`vTensor` data model, the barrier-emission (hazard tracking) protocol,
GPU-aligned layout math, quantization metadata, and the
`convert` / `convert_quantized` wrappers.

The header in the repository declares the data model and the inline
accessors; the out-of-line member bodies (the `transition` hazard logic,
the constructors computing GPU-aligned sizes and `buffer_length_`, the
destructor) are declared but their translation unit is not part of the
excerpt, so those are modelled from the specification (each such
definition is marked `Modelled from the spec:`).

Machine integers (`int64_t`, `size_t`, `uint32_t`) are modelled as
`Nat`/`Int`: all quantities involved (sizes, strides, element counts)
are nonnegative and no overflowing arithmetic is performed by the code
under study.  A C++ `double` quantization scale is modelled as `Rat`:
the code only stores and reloads it, never performs floating-point
arithmetic on it, so any exactly-representable value round-trips.
-/

namespace VulkanOps

/-- Pipeline stage bitmask (`api::PipelineStageFlags`); a set of pipeline
stages.  `NO_STAGE = 0` is the empty stage set used by the sentinel
access record. -/
abbrev PipelineStageFlags := Nat

/-- Sentinel stage set, `api::PipelineStage::NO_STAGE`. -/
def PipelineStage.NO_STAGE : PipelineStageFlags := 0

/-- Compute-dispatch stage bit, `api::PipelineStage::COMPUTE`. -/
def PipelineStage.COMPUTE : PipelineStageFlags := 1

/-- Host stage bit, `api::PipelineStage::HOST`. -/
def PipelineStage.HOST : PipelineStageFlags := 2

/-- Transfer stage bit, `api::PipelineStage::TRANSFER`. -/
def PipelineStage.TRANSFER : PipelineStageFlags := 4

/-- Memory access type set (`api::MemoryAccessFlags`): which of
read / write the access performs. -/
structure MemoryAccessFlags where
  read : Bool
  write : Bool
deriving DecidableEq

/-- Empty access set, `api::MemoryAccessType::NONE`; part of the
sentinel access record. -/
def MemoryAccessType.NONE : MemoryAccessFlags := ⟨false, false⟩

/-- Read access, `api::MemoryAccessType::READ`. -/
def MemoryAccessType.READ : MemoryAccessFlags := ⟨true, false⟩

/-- Write access, `api::MemoryAccessType::WRITE`. -/
def MemoryAccessType.WRITE : MemoryAccessFlags := ⟨false, true⟩

/-- An access is read-only when it reads and does not write; any access
with the write bit set counts as a write for hazard purposes. -/
def MemoryAccessFlags.readOnly (a : MemoryAccessFlags) : Bool :=
  a.read && !a.write

/-- The `LastAccess` record of `Tensor.h`: the pipeline stage set and
memory access set of the most recent operation that touched the
resource. -/
structure LastAccess where
  stage : PipelineStageFlags
  access : MemoryAccessFlags
deriving DecidableEq

/-- Default-constructed `LastAccess`: the "no access yet" sentinel
`(NO_STAGE, NONE)`. -/
def LastAccess.sentinel : LastAccess :=
  ⟨PipelineStage.NO_STAGE, MemoryAccessType.NONE⟩

/-- The `StorageType` enumeration of `Tensor.h`. -/
inductive StorageType where
  | TEXTURE_3D
  | TEXTURE_2D
  | BUFFER
deriving DecidableEq

/-- Three-dimensional unsigned extents (`api::utils::uvec3`). -/
structure UVec3 where
  width : Nat
  height : Nat
  depth : Nat
deriving DecidableEq

/-- A barrier description emitted into the command recorder:
(from-stage, from-access, to-stage, to-access). -/
structure BarrierDesc where
  src_stage : PipelineStageFlags
  src_access : MemoryAccessFlags
  dst_stage : PipelineStageFlags
  dst_access : MemoryAccessFlags
deriving DecidableEq

/-- The `api::PipelineBarrier` sink into which `transition` records the
barriers it decides are required. -/
structure PipelineBarrier where
  barriers : List BarrierDesc
deriving DecidableEq

/-- A pipeline barrier sink with nothing recorded yet. -/
def emptyPipelineBarrier : PipelineBarrier := ⟨[]⟩

/-- Modelled from the spec: the hazard rule of the barrier-emission
protocol (§4.2 hazard rule together with the §4.3 state table; the
body of `vTensorStorage::transition` is declared in `Tensor.h` but
defined in a translation unit outside the excerpt).  From the `Unused`
state (sentinel record) no barrier is required; otherwise a barrier is
required unless the prior access was read-only, the requested access is
read-only, and both target the same pipeline stage set. -/
def requiresBarrier (prev : LastAccess) (stage : PipelineStageFlags)
    (access : MemoryAccessFlags) : Bool :=
  if prev = LastAccess.sentinel then
    false
  else
    !(prev.access.readOnly && access.readOnly && prev.stage == stage)

/-- The `vTensorStorage` class of `Tensor.h`: storage kind, resource
sizings, and the `last_access_` record used to insert memory barriers.
The opaque GPU resource handle (`image_` / `buffer_`) is represented by
an allocation identifier. -/
structure vTensorStorage where
  storage_type_ : StorageType
  extents_ : UVec3
  buffer_length_ : Nat
  handle_ : Nat
  last_access_ : LastAccess
deriving DecidableEq

/-- Modelled from the spec: `vTensorStorage::transition` (declared in
`Tensor.h`, body outside the excerpt).  It inspects `last_access_`,
emits a barrier description `(from-stage, from-access, to-stage,
to-access)` into the sink when the hazard rule requires one, and always
updates `last_access_` to the requested `(stage, access)` before
returning; it has no failure result. -/
def vTensorStorage.transition (s : vTensorStorage)
    (pipeline_barrier : PipelineBarrier) (stage : PipelineStageFlags)
    (access : MemoryAccessFlags) : vTensorStorage × PipelineBarrier :=
  ({ s with last_access_ := ⟨stage, access⟩ },
    if requiresBarrier s.last_access_ stage access then
      ⟨pipeline_barrier.barriers ++
        [⟨s.last_access_.stage, s.last_access_.access, stage, access⟩]⟩
    else
      pipeline_barrier)

/-- Rounds `n` up to the next multiple of 4; in `Nat` arithmetic
`(n + 3) / 4` is `ceil(n / 4)`. -/
def alignUp4 (n : Nat) : Nat :=
  (n + 3) / 4 * 4

/-- Modelled from the spec: the GPU-aligned sizes computed at `vTensor`
construction (the constructor bodies are outside the excerpt) — the last
logical dimension is padded up to the next multiple of 4, all other
dimensions are kept. -/
def calc_gpu_sizes : List Nat → List Nat
  | [] => []
  | [n] => [alignUp4 n]
  | n :: rest => n :: calc_gpu_sizes rest

/-- Last element of a size list (the padded axis of the layout), `0` for
the empty list. -/
def lastDim : List Nat → Nat
  | [] => 0
  | [n] => n
  | _ :: rest => lastDim rest

/-- Product of a list of dimension extents (`c10::multiply_integers`). -/
def prodList : List Nat → Nat
  | [] => 1
  | n :: rest => n * prodList rest

/-- Contiguous strides for a given size list: each stride is the product
of the sizes to its right. -/
def contig_strides : List Nat → List Nat
  | [] => []
  | _ :: rest => prodList rest :: contig_strides rest

/-- Modelled from the spec: the `vTensorStorage` constructor (body
outside the excerpt).  It fixes the storage kind, computes the GPU
extents / buffer length from the GPU-aligned sizes (the element count of
the padded shape), takes ownership of a freshly allocated resource
handle, and leaves `last_access_` at the sentinel. -/
def mk_vTensorStorage (storage_type : StorageType) (sizes : List Nat)
    (handle : Nat) : vTensorStorage :=
  { storage_type_ := storage_type
    extents_ := ⟨lastDim (calc_gpu_sizes sizes), 1, 1⟩
    buffer_length_ := prodList (calc_gpu_sizes sizes)
    handle_ := handle
    last_access_ := LastAccess.sentinel }

/-- Identifier of a `vTensorStorage` shared between `vTensor` aliases:
the spec's design note models the `std::shared_ptr<vTensorStorage>`
member as an index into a central resource table, making aliasing
explicit. -/
abbrev StorageId := Nat

/-- The central resource table: the storage each identifier denotes. -/
abbrev World := StorageId → vTensorStorage

/-- Replaces the storage a single identifier denotes. -/
def updateWorld (w : World) (i : StorageId) (s : vTensorStorage) : World :=
  fun j => if j = i then s else w j

/-- The `vTensor` class of `Tensor.h`: logical sizes and strides,
GPU-aligned sizes and strides, quantization metadata with the member
initializers of the header (`is_quantized_{false}`, `q_scale_{1.0f}`,
`q_zero_point_{0u}`), and the shared storage reference `view_`.  The
shared pointer is modelled as an optional storage identifier; the
default-constructed `vTensor` (`vTensor() = default`) holds the null
pointer, i.e. `none`. -/
structure vTensor where
  sizes_ : List Nat
  strides_ : List Nat
  gpu_sizes_ : List Nat
  gpu_strides_ : List Nat
  is_quantized_ : Bool := false
  q_scale_ : Rat := 1
  q_zero_point_ : Int := 0
  view_ : Option StorageId := none
deriving DecidableEq

/-- The default-constructed (empty) `vTensor`: `vTensor() = default`
value-initializes every member, leaving the shared storage pointer
null. -/
def vTensor.empty : vTensor :=
  { sizes_ := [], strides_ := [], gpu_sizes_ := [], gpu_strides_ := [] }

/-- Modelled from the spec: the sized `vTensor` constructor (body
outside the excerpt).  It records the logical sizes, derives contiguous
strides, computes the GPU-aligned sizes by padding the last logical
dimension to the next multiple of 4 together with the matching strides,
leaves the quantization members at their header defaults, and shares the
storage allocated for the padded shape via `view_`. -/
def mk_vTensor (sizes : List Nat) (id : StorageId) : vTensor :=
  { sizes_ := sizes
    strides_ := contig_strides sizes
    gpu_sizes_ := calc_gpu_sizes sizes
    gpu_strides_ := contig_strides (calc_gpu_sizes sizes)
    view_ := some id }

/-- `vTensor::storage_type`: reads `view_->storage_type_`; the
dereference of a null `view_` has no defined result, modelled as
`none`. -/
def vTensor.storage_type (w : World) (t : vTensor) : Option StorageType :=
  t.view_.map fun i => (w i).storage_type_

/-- `vTensor::extents`: reads `view_->extents_` through the shared
pointer. -/
def vTensor.extents (w : World) (t : vTensor) : Option UVec3 :=
  t.view_.map fun i => (w i).extents_

/-- `vTensor::numel`: `c10::multiply_integers(sizes())`, the product of
the logical sizes.  Computed from `sizes_` only, no storage
dereference. -/
def vTensor.numel (t : vTensor) : Nat :=
  prodList t.sizes_

/-- `vTensor::gpu_numel`: reads `view_->buffer_length_` through the
shared pointer. -/
def vTensor.gpu_numel (w : World) (t : vTensor) : Option Nat :=
  t.view_.map fun i => (w i).buffer_length_

/-- `vTensor::is_quantized`. -/
def vTensor.is_quantized (t : vTensor) : Bool :=
  t.is_quantized_

/-- `vTensor::set_is_quantized`: sets `is_quantized_ = true`. -/
def vTensor.set_is_quantized (t : vTensor) : vTensor :=
  { t with is_quantized_ := true }

/-- `vTensor::set_scale`: stores the scale. -/
def vTensor.set_scale (t : vTensor) (q_scale : Rat) : vTensor :=
  { t with q_scale_ := q_scale }

/-- `vTensor::get_scale`. -/
def vTensor.get_scale (t : vTensor) : Rat :=
  t.q_scale_

/-- `vTensor::set_zero_point`: stores the zero point. -/
def vTensor.set_zero_point (t : vTensor) (q_zero_point : Int) : vTensor :=
  { t with q_zero_point_ := q_zero_point }

/-- `vTensor::get_zero_point`. -/
def vTensor.get_zero_point (t : vTensor) : Int :=
  t.q_zero_point_

/-- `vTensor::sizes`. -/
def vTensor.sizes (t : vTensor) : List Nat :=
  t.sizes_

/-- `vTensor::strides`. -/
def vTensor.strides (t : vTensor) : List Nat :=
  t.strides_

/-- `vTensor::gpu_sizes`. -/
def vTensor.gpu_sizes (t : vTensor) : List Nat :=
  t.gpu_sizes_

/-- Modelled from the spec: `request_access`, the `vTensor::image` /
`vTensor::buffer` accessors (bodies outside the excerpt) that delegate
to the shared storage's `transition`.  It updates the storage the alias
points at in the resource table and reports whether a barrier was
emitted into the (initially empty) sink; on a null `view_` the
dereference has no defined result, modelled as `none`. -/
def vTensor.requestAccess (w : World) (t : vTensor)
    (stage : PipelineStageFlags) (access : MemoryAccessFlags) :
    Option (World × Bool) :=
  t.view_.map fun i =>
    let r := (w i).transition emptyPipelineBarrier stage access
    (updateWorld w i r.1, !r.2.barriers.isEmpty)

/-- The CPU-side `at::Tensor` wrapper produced by
`at::detail::make_tensor<vTensorImpl>`: the Vulkan dispatch key, the
wrapped `vTensor` opaque handle, and the sizes and strides it was
constructed with. -/
structure Tensor where
  vulkan_key : Bool
  handle : vTensor
  tsizes : List Nat
  tstrides : List Nat
deriving DecidableEq

/-- The `convert(const vTensor&)` direction of `Tensor.h`: wraps the
`vTensor` into an `at::Tensor` with the tensor's sizes and strides,
with no precondition on quantization. -/
def convert (tensor : vTensor) : Tensor :=
  ⟨true, tensor, tensor.sizes, tensor.strides⟩

/-- The `convert_quantized(const vTensor&)` function of `Tensor.h`:
`TORCH_CHECK(tensor.is_quantized(), "Not a Quantized Tensor")` raises
when the tensor is not quantized, otherwise it wraps exactly as
`convert` does. -/
def convert_quantized (tensor : vTensor) : Except String Tensor :=
  if tensor.is_quantized then
    Except.ok ⟨true, tensor, tensor.sizes, tensor.strides⟩
  else
    Except.error "Not a Quantized Tensor"

/-- A `vTensorStorage` together with the bookkeeping of its
`std::shared_ptr` owners: the number of live `vTensor` aliases holding
the shared pointer, and how many times the destructor has released the
resource handle to the allocation backend. -/
structure OwnedStorage where
  storage : vTensorStorage
  refcount : Nat
  releases : Nat
deriving DecidableEq

/-- Modelled from the spec: destruction of one `vTensor` alias.  The
shared pointer decrements the owner count; when the last owner goes
away the `vTensorStorage` destructor runs and releases the resource
handle (one call to the backend's `destroy`), independent of the access
history. -/
def dropAlias (o : OwnedStorage) : OwnedStorage :=
  if o.refcount = 1 then
    { o with refcount := 0, releases := o.releases + 1 }
  else
    { o with refcount := o.refcount - 1 }

/-- Destroys `k` aliases one after the other. -/
def dropAliases : Nat → OwnedStorage → OwnedStorage
  | 0, o => o
  | k + 1, o => dropAliases k (dropAlias o)

/-- A requested access: the pipeline stage set and memory access set
passed to one `transition` call. -/
abbrev AccessRequest := PipelineStageFlags × MemoryAccessFlags

/-- Runs a sequence of `transition` calls on a storage, each with its
own (initially empty) barrier sink, keeping the storage state. -/
def runTransitions (s : vTensorStorage) : List AccessRequest → vTensorStorage
  | [] => s
  | r :: rest =>
      runTransitions ((s.transition emptyPipelineBarrier r.1 r.2).1) rest

/-- One call to a quantization-parameter setter of `vTensor`
(`set_scale` or `set_zero_point`). -/
inductive QuantOp where
  | setScale (q_scale : Rat)
  | setZeroPoint (q_zero_point : Int)

/-- Applies one quantization-parameter setter. -/
def applyQuantOp (t : vTensor) : QuantOp → vTensor
  | QuantOp.setScale q => t.set_scale q
  | QuantOp.setZeroPoint z => t.set_zero_point z

/-- Applies a sequence of `set_scale` / `set_zero_point` calls. -/
def applyQuantOps (t : vTensor) (l : List QuantOp) : vTensor :=
  l.foldl applyQuantOp t

/-- A sample resource table used to instantiate alias scenarios: every
identifier denotes the storage of a freshly constructed buffer tensor of
logical sizes `[1, 3, 7]`. -/
def sampleWorld : World :=
  fun _ => mk_vTensorStorage StorageType.BUFFER [1, 3, 7] 0

theorem le_alignUp4 (n : Nat) : n ≤ alignUp4 n := by
  unfold alignUp4
  omega

theorem alignUp4_eq_iff (n : Nat) : alignUp4 n = n ↔ n % 4 = 0 := by
  unfold alignUp4
  omega

theorem lastDim_cons_cons (n m : Nat) (l : List Nat) :
    lastDim (n :: m :: l) = lastDim (m :: l) :=
  rfl

theorem calc_gpu_sizes_cons_cons (n m : Nat) (l : List Nat) :
    calc_gpu_sizes (n :: m :: l) = n :: calc_gpu_sizes (m :: l) :=
  rfl

theorem calc_gpu_sizes_singleton (n : Nat) :
    calc_gpu_sizes [n] = [alignUp4 n] :=
  rfl

theorem prodList_cons (n : Nat) (l : List Nat) :
    prodList (n :: l) = n * prodList l :=
  rfl

theorem calc_gpu_sizes_cons_ne_nil (n : Nat) (l : List Nat) :
    calc_gpu_sizes (n :: l) ≠ [] := by
  cases l <;> simp [calc_gpu_sizes_singleton, calc_gpu_sizes_cons_cons]

theorem lastDim_cons_of_ne_nil (n : Nat) (l : List Nat) (h : l ≠ []) :
    lastDim (n :: l) = lastDim l := by
  cases l with
  | nil => exact absurd rfl h
  | cons m l2 => rfl

theorem calc_gpu_sizes_lastDim (l : List Nat) :
    lastDim (calc_gpu_sizes l) = alignUp4 (lastDim l) := by
  induction l with
  | nil =>
      show 0 = alignUp4 0
      rfl
  | cons n rest ih =>
      cases rest with
      | nil => rfl
      | cons m rest2 =>
          rw [calc_gpu_sizes_cons_cons,
            lastDim_cons_of_ne_nil n _ (calc_gpu_sizes_cons_ne_nil m rest2),
            ih, lastDim_cons_cons]

theorem calc_gpu_sizes_length (l : List Nat) :
    (calc_gpu_sizes l).length = l.length := by
  induction l with
  | nil => rfl
  | cons n rest ih =>
      cases rest with
      | nil => rfl
      | cons m rest2 =>
          rw [calc_gpu_sizes_cons_cons]
          simpa using ih

theorem calc_gpu_sizes_getD_le (l : List Nat) (i : Nat) :
    l.getD i 0 ≤ (calc_gpu_sizes l).getD i 0 := by
  induction l generalizing i with
  | nil => simp
  | cons n rest ih =>
      cases rest with
      | nil =>
          cases i with
          | zero => simpa [calc_gpu_sizes_singleton] using le_alignUp4 n
          | succ j => simp [calc_gpu_sizes_singleton]
      | cons m rest2 =>
          cases i with
          | zero => simp [calc_gpu_sizes_cons_cons]
          | succ j => simpa [calc_gpu_sizes_cons_cons] using ih j

theorem prodList_le_calc_gpu_sizes (l : List Nat) :
    prodList l ≤ prodList (calc_gpu_sizes l) := by
  induction l with
  | nil => exact Nat.le_refl 1
  | cons n rest ih =>
      cases rest with
      | nil =>
          simpa [calc_gpu_sizes_singleton, prodList_cons, prodList] using
            Nat.mul_le_mul (le_alignUp4 n) (Nat.le_refl 1)
      | cons m rest2 =>
          rw [calc_gpu_sizes_cons_cons, prodList_cons, prodList_cons]
          exact Nat.mul_le_mul (Nat.le_refl n) ih

theorem prodList_calc_gpu_sizes_eq_iff (l : List Nat) :
    prodList (calc_gpu_sizes l) = prodList l ↔
      lastDim l % 4 = 0 ∨ 0 ∈ l := by
  induction l with
  | nil => simp [calc_gpu_sizes, prodList, lastDim]
  | cons n rest ih =>
      cases rest with
      | nil =>
          simp only [calc_gpu_sizes_singleton, prodList_cons, prodList,
            Nat.mul_one, List.mem_singleton]
          rw [alignUp4_eq_iff]
          show n % 4 = 0 ↔ n % 4 = 0 ∨ 0 = n
          omega
      | cons m rest2 =>
          by_cases hn : n = 0
          · subst hn
            simp [calc_gpu_sizes_cons_cons, prodList_cons]
          · rw [calc_gpu_sizes_cons_cons, prodList_cons, prodList_cons,
              mul_right_inj' hn, ih, lastDim_cons_cons]
            simp [hn, eq_comm]

theorem requiresBarrier_true_iff (prev : LastAccess)
    (stage : PipelineStageFlags) (access : MemoryAccessFlags) :
    requiresBarrier prev stage access = true ↔
      (prev ≠ LastAccess.sentinel ∧
        ¬(prev.access.readOnly = true ∧ access.readOnly = true ∧
          prev.stage = stage)) := by
  unfold requiresBarrier
  by_cases hs : prev = LastAccess.sentinel
  · simp [hs]
  · rw [if_neg hs]
    by_cases hst : prev.stage = stage <;>
      cases ha : prev.access.readOnly <;>
      cases hb2 : access.readOnly <;>
      simp [hs, hst, ha, hb2]

theorem transition_emits_iff (s : vTensorStorage) (pb : PipelineBarrier)
    (stage : PipelineStageFlags) (access : MemoryAccessFlags) :
    (s.transition pb stage access).2.barriers ≠ pb.barriers ↔
      requiresBarrier s.last_access_ stage access = true := by
  unfold vTensorStorage.transition
  by_cases h : requiresBarrier s.last_access_ stage access = true
  · rw [if_pos h]
    simp only [h, iff_true]
    intro hc
    have hlen := congrArg List.length hc
    simp at hlen
  · rw [if_neg h]
    simp [h]

theorem transition_emitted_flag (s : vTensorStorage)
    (stage : PipelineStageFlags) (access : MemoryAccessFlags) :
    (!((s.transition emptyPipelineBarrier stage access).2.barriers.isEmpty)) =
      requiresBarrier s.last_access_ stage access := by
  unfold vTensorStorage.transition
  by_cases h : requiresBarrier s.last_access_ stage access = true
  · rw [if_pos h, h]
    rfl
  · rw [if_neg h]
    simp only [Bool.not_eq_true] at h
    rw [h]
    rfl

theorem updateWorld_same (w : World) (i : StorageId) (s : vTensorStorage) :
    updateWorld w i s i = s := by
  simp [updateWorld]

theorem dropAlias_of_ne_one (s : vTensorStorage) (n r : Nat) (h : n ≠ 1) :
    dropAlias ⟨s, n, r⟩ = ⟨s, n - 1, r⟩ := by
  simp [dropAlias, h]

theorem dropAlias_of_one (s : vTensorStorage) (r : Nat) :
    dropAlias ⟨s, 1, r⟩ = ⟨s, 0, r + 1⟩ := by
  simp [dropAlias]

theorem dropAliases_of_lt (s : vTensorStorage) (k : Nat) :
    ∀ n r, k < n → dropAliases k ⟨s, n, r⟩ = ⟨s, n - k, r⟩ := by
  induction k with
  | zero =>
      intro n r _
      simp [dropAliases]
  | succ j ih =>
      intro n r h
      show dropAliases j (dropAlias ⟨s, n, r⟩) = ⟨s, n - (j + 1), r⟩
      rw [dropAlias_of_ne_one s n r (by omega), ih (n - 1) r (by omega)]
      have hval : n - 1 - j = n - (j + 1) := by omega
      rw [hval]

theorem dropAliases_full (s : vTensorStorage) (n r : Nat) (h : 0 < n) :
    dropAliases n ⟨s, n, r⟩ = ⟨s, 0, r + 1⟩ := by
  induction n with
  | zero => exact absurd h (by omega)
  | succ j ih =>
      cases Nat.eq_zero_or_pos j with
      | inl hj =>
          subst hj
          show dropAliases 0 (dropAlias ⟨s, 1, r⟩) = ⟨s, 0, r + 1⟩
          rw [dropAlias_of_one]
          rfl
      | inr hj =>
          show dropAliases j (dropAlias ⟨s, j + 1, r⟩) = ⟨s, 0, r + 1⟩
          rw [dropAlias_of_ne_one s (j + 1) r (by omega)]
          simpa using ih hj

theorem applyQuantOps_fields (t : vTensor) (l : List QuantOp) :
    (applyQuantOps t l).sizes_ = t.sizes_ ∧
    (applyQuantOps t l).strides_ = t.strides_ ∧
    (applyQuantOps t l).gpu_sizes_ = t.gpu_sizes_ ∧
    (applyQuantOps t l).gpu_strides_ = t.gpu_strides_ ∧
    (applyQuantOps t l).is_quantized_ = t.is_quantized_ ∧
    (applyQuantOps t l).view_ = t.view_ := by
  induction l generalizing t with
  | nil => exact ⟨rfl, rfl, rfl, rfl, rfl, rfl⟩
  | cons op rest ih =>
      have h := ih (applyQuantOp t op)
      cases op <;> exact h

/-- Claim C1, counterexample: the claimed characterisation "a barrier is
emitted iff it is not the case that the prior access was read-only, the
requested access is read-only, and both target the same stage set" fails
on the very first access of a freshly constructed Storage: the requested
read at the compute stage satisfies the right-hand side (the sentinel
record is neither read-only nor at the same stage), yet no barrier is
emitted, exactly as the Unused row of the §4.3 table prescribes. -/
theorem transition_unused_read_cex :
    ¬((((mk_vTensorStorage StorageType.BUFFER [1, 3, 7] 0).transition
          emptyPipelineBarrier PipelineStage.COMPUTE
          MemoryAccessType.READ).2.barriers ≠ emptyPipelineBarrier.barriers) ↔
        ¬((mk_vTensorStorage StorageType.BUFFER
              [1, 3, 7] 0).last_access_.access.readOnly = true ∧
          MemoryAccessType.READ.readOnly = true ∧
          (mk_vTensorStorage StorageType.BUFFER [1, 3, 7] 0).last_access_.stage =
            PipelineStage.COMPUTE)) := by
  decide

/-- Claim C1 (amended): for every sequence of `transition` calls on a
single Storage starting from the sentinel record, a barrier is emitted
on the next transition if and only if the current access record is not
the sentinel and it is not the case that the prior access was read-only,
the requested access is read-only, and both target the same pipeline
stage set.  In particular the first access from the Unused state emits
no barrier, a same-stage read after a read emits no barrier, and every
non-initial access involving a write (prior or requested) or a stage
change emits a barrier, as the state table in spec §4.3 prescribes. -/
theorem transition_barrier_policy (st : StorageType) (sizes : List Nat)
    (handle : Nat) (reqs : List AccessRequest) (pb : PipelineBarrier)
    (stage : PipelineStageFlags) (access : MemoryAccessFlags) :
    (((runTransitions (mk_vTensorStorage st sizes handle) reqs).transition
        pb stage access).2.barriers ≠ pb.barriers) ↔
      ((runTransitions (mk_vTensorStorage st sizes handle) reqs).last_access_ ≠
          LastAccess.sentinel ∧
        ¬((runTransitions (mk_vTensorStorage st sizes
              handle) reqs).last_access_.access.readOnly = true ∧
          access.readOnly = true ∧
          (runTransitions (mk_vTensorStorage st sizes
              handle) reqs).last_access_.stage = stage)) := by
  rw [transition_emits_iff, requiresBarrier_true_iff]

/-- Claim C2: every `transition(requested_stage, requested_access,
barrier_sink)` call returns with the stored access record equal to
exactly the requested pair, whether or not a barrier was emitted, the
remaining storage state (kind, extents, buffer length, resource handle)
untouched; the operation is total, with no error result. -/
theorem transition_updates_record (s : vTensorStorage)
    (pb : PipelineBarrier) (stage : PipelineStageFlags)
    (access : MemoryAccessFlags) :
    (s.transition pb stage access).1.last_access_ = LastAccess.mk stage access ∧
    (s.transition pb stage access).1.storage_type_ = s.storage_type_ ∧
    (s.transition pb stage access).1.extents_ = s.extents_ ∧
    (s.transition pb stage access).1.buffer_length_ = s.buffer_length_ ∧
    (s.transition pb stage access).1.handle_ = s.handle_ :=
  ⟨rfl, rfl, rfl, rfl, rfl⟩

/-- Claim C3: two `vTensor` views sharing one underlying Storage observe
a single access record: after an access requested through the first
view, the record held by the shared storage is the requested pair, and
the barrier decision of the next access requested through the second
view is computed against exactly that updated record. -/
theorem shared_storage_access_visible (w : World) (t1 t2 : vTensor)
    (i : StorageId) (h1 : t1.view_ = some i) (h2 : t2.view_ = some i)
    (s1 s2 : PipelineStageFlags) (a1 a2 : MemoryAccessFlags) :
    ∃ w1 b1 w2 b2,
      t1.requestAccess w s1 a1 = some (w1, b1) ∧
      (w1 i).last_access_ = LastAccess.mk s1 a1 ∧
      t2.requestAccess w1 s2 a2 = some (w2, b2) ∧
      b2 = requiresBarrier (LastAccess.mk s1 a1) s2 a2 := by
  have e1 : t1.requestAccess w s1 a1 =
      some (updateWorld w i ((w i).transition emptyPipelineBarrier s1 a1).1,
        !((w i).transition emptyPipelineBarrier s1 a1).2.barriers.isEmpty) := by
    unfold vTensor.requestAccess
    rw [h1]
    rfl
  have p1 : ((updateWorld w i
        ((w i).transition emptyPipelineBarrier s1 a1).1) i).last_access_ =
      LastAccess.mk s1 a1 := by
    rw [updateWorld_same]
    rfl
  have e2 : t2.requestAccess
        (updateWorld w i ((w i).transition emptyPipelineBarrier s1 a1).1) s2 a2 =
      some (updateWorld
          (updateWorld w i ((w i).transition emptyPipelineBarrier s1 a1).1) i
          (((updateWorld w i ((w i).transition emptyPipelineBarrier s1 a1).1 i).transition
            emptyPipelineBarrier s2 a2).1),
        !(((updateWorld w i ((w i).transition emptyPipelineBarrier s1 a1).1 i).transition
            emptyPipelineBarrier s2 a2).2.barriers.isEmpty)) := by
    unfold vTensor.requestAccess
    rw [h2]
    rfl
  have p2 : (!(((updateWorld w i
          ((w i).transition emptyPipelineBarrier s1 a1).1 i).transition
          emptyPipelineBarrier s2 a2).2.barriers.isEmpty)) =
      requiresBarrier (LastAccess.mk s1 a1) s2 a2 := by
    rw [transition_emitted_flag, updateWorld_same]
    rfl
  exact ⟨_, _, _, _, e1, p1, e2, p2⟩

/-- Claim C3, witness: the scenario instantiated with two shallow copies
of a `[1, 3, 7]` buffer tensor aliasing storage `0`: a compute-stage
write through the first view followed by a compute-stage read through
the second. -/
theorem shared_storage_access_visible_witness :
    ∃ w1 b1 w2 b2,
      (mk_vTensor [1, 3, 7] 0).requestAccess sampleWorld
        PipelineStage.COMPUTE MemoryAccessType.WRITE = some (w1, b1) ∧
      (w1 0).last_access_ =
        LastAccess.mk PipelineStage.COMPUTE MemoryAccessType.WRITE ∧
      (mk_vTensor [1, 3, 7] 0).requestAccess w1
        PipelineStage.COMPUTE MemoryAccessType.READ = some (w2, b2) ∧
      b2 = requiresBarrier
          (LastAccess.mk PipelineStage.COMPUTE MemoryAccessType.WRITE)
          PipelineStage.COMPUTE MemoryAccessType.READ :=
  shared_storage_access_visible sampleWorld (mk_vTensor [1, 3, 7] 0)
    (mk_vTensor [1, 3, 7] 0) 0 rfl rfl PipelineStage.COMPUTE
    PipelineStage.COMPUTE MemoryAccessType.WRITE MemoryAccessType.READ

/-- Claim C4: for every `vTensor` constructed from logical sizes, the
GPU-aligned size along the padded (last) axis equals
`ceil(logical / 4) * 4` (in `Nat` arithmetic `(n + 3) / 4 * 4`), it
equals the logical size exactly when the logical size is a multiple of
4, and every GPU-aligned size component is at least the corresponding
logical component. -/
theorem gpu_sizes_padded_spec (sizes : List Nat) (id : StorageId) :
    lastDim (mk_vTensor sizes id).gpu_sizes = (lastDim sizes + 3) / 4 * 4 ∧
    (lastDim (mk_vTensor sizes id).gpu_sizes = lastDim sizes ↔
      lastDim sizes % 4 = 0) ∧
    (mk_vTensor sizes id).gpu_sizes.length = (mk_vTensor sizes id).sizes.length ∧
    ∀ i < sizes.length,
      (mk_vTensor sizes id).sizes.getD i 0 ≤
        (mk_vTensor sizes id).gpu_sizes.getD i 0 := by
  refine ⟨?_, ?_, calc_gpu_sizes_length sizes,
    fun i _ => calc_gpu_sizes_getD_le sizes i⟩
  · show lastDim (calc_gpu_sizes sizes) = (lastDim sizes + 3) / 4 * 4
    rw [calc_gpu_sizes_lastDim]
    rfl
  · show lastDim (calc_gpu_sizes sizes) = lastDim sizes ↔ lastDim sizes % 4 = 0
    rw [calc_gpu_sizes_lastDim, alignUp4_eq_iff]

/-- Claim C4, witness: the spec §8 scenario, logical shape `[1, 3, 7]`,
whose GPU-aligned shape is `[1, 3, 8]`. -/
theorem gpu_sizes_padded_spec_witness :
    lastDim (mk_vTensor [1, 3, 7] 0).gpu_sizes = (lastDim [1, 3, 7] + 3) / 4 * 4 ∧
    (lastDim (mk_vTensor [1, 3, 7] 0).gpu_sizes = lastDim [1, 3, 7] ↔
      lastDim [1, 3, 7] % 4 = 0) ∧
    (mk_vTensor [1, 3, 7] 0).gpu_sizes.length =
      (mk_vTensor [1, 3, 7] 0).sizes.length ∧
    ∀ i < ([1, 3, 7] : List Nat).length,
      (mk_vTensor [1, 3, 7] 0).sizes.getD i 0 ≤
        (mk_vTensor [1, 3, 7] 0).gpu_sizes.getD i 0 :=
  gpu_sizes_padded_spec [1, 3, 7] 0

/-- Claim C5, counterexample: for logical sizes `[0, 7]` the GPU element
count equals the logical element count (both are `0`) although the
padded axis `7` is not a multiple of 4, so the claimed "equality iff the
padded axis was already a multiple of 4" fails. -/
theorem gpu_numel_eq_iff_cex :
    (mk_vTensorStorage StorageType.BUFFER [0, 7] 0).buffer_length_ =
      (mk_vTensor [0, 7] 0).numel ∧
    ¬(lastDim [0, 7] % 4 = 0) := by
  decide

/-- Claim C5 (amended): the GPU element count (`gpu_numel`, the
`buffer_length_` computed from the GPU-aligned sizes) is always at least
the logical element count (`numel`), with equality if and only if the
padded last axis is already a multiple of 4 or some logical size
component is zero (a degenerate empty tensor, whose element count is
zero under either layout). -/
theorem gpu_numel_ge_spec (sizes : List Nat) (st : StorageType)
    (id handle : Nat) (w : World) :
    (mk_vTensor sizes id).gpu_numel
        (updateWorld w id (mk_vTensorStorage st sizes handle)) =
      some ((mk_vTensorStorage st sizes handle).buffer_length_) ∧
    (mk_vTensor sizes id).numel ≤
      (mk_vTensorStorage st sizes handle).buffer_length_ ∧
    ((mk_vTensorStorage st sizes handle).buffer_length_ =
        (mk_vTensor sizes id).numel ↔
      lastDim sizes % 4 = 0 ∨ 0 ∈ sizes) := by
  refine ⟨?_, ?_, ?_⟩
  · simp [vTensor.gpu_numel, mk_vTensor, updateWorld]
  · exact prodList_le_calc_gpu_sizes sizes
  · exact prodList_calc_gpu_sizes_eq_iff sizes

/-- Claim C6: for a Storage shared by `n ≥ 1` `vTensor` aliases, the
resource handle is released exactly once, by the destruction of the
last alias: after all `n` aliases are destroyed the owner count is zero
and the backend's `destroy` has been called exactly once, and after any
proper prefix of the destructions it has not been called at all — for
every storage state, including one on which no access ever occurred
(the record still at the sentinel). -/
theorem storage_release_exactly_once (s : vTensorStorage) (n : Nat)
    (h : 0 < n) :
    (dropAliases n ⟨s, n, 0⟩).releases = 1 ∧
    (dropAliases n ⟨s, n, 0⟩).refcount = 0 ∧
    ∀ k < n, (dropAliases k ⟨s, n, 0⟩).releases = 0 := by
  refine ⟨?_, ?_, ?_⟩
  · rw [dropAliases_full s n 0 h]
  · rw [dropAliases_full s n 0 h]
  · intro k hk
    rw [dropAliases_of_lt s k n 0 hk]

/-- Claim C6, witness: three aliases of a freshly constructed (never
accessed) buffer storage. -/
theorem storage_release_exactly_once_witness :
    (dropAliases 3 ⟨mk_vTensorStorage StorageType.BUFFER [1, 3, 7] 0, 3, 0⟩).releases = 1 ∧
    (dropAliases 3 ⟨mk_vTensorStorage StorageType.BUFFER [1, 3, 7] 0, 3, 0⟩).refcount = 0 ∧
    ∀ k < 3, (dropAliases k
      ⟨mk_vTensorStorage StorageType.BUFFER [1, 3, 7] 0, 3, 0⟩).releases = 0 :=
  storage_release_exactly_once
    (mk_vTensorStorage StorageType.BUFFER [1, 3, 7] 0) 3 (by decide)

/-- Claim C7: `is_quantized()` is false on a freshly constructed
`vTensor` and stays false after any sequence of `set_scale` /
`set_zero_point` calls; it becomes true only through the explicit
`set_is_quantized()` call; and `set_scale` / `set_zero_point` change
only the scale respectively zero-point field, leaving every other field
of the tensor unchanged. -/
theorem quantized_flag_explicit_spec (sizes : List Nat) (id : StorageId)
    (t : vTensor) (l : List QuantOp) (q : Rat) (z : Int) :
    (mk_vTensor sizes id).is_quantized = false ∧
    (applyQuantOps t l).is_quantized = t.is_quantized ∧
    (applyQuantOps (mk_vTensor sizes id) l).is_quantized = false ∧
    t.set_is_quantized.is_quantized = true ∧
    t.set_scale q = { t with q_scale_ := q } ∧
    t.set_zero_point z = { t with q_zero_point_ := z } := by
  have hfr := applyQuantOps_fields t l
  have hfr2 := applyQuantOps_fields (mk_vTensor sizes id) l
  exact ⟨rfl, hfr.2.2.2.2.1, hfr2.2.2.2.2.1, rfl, rfl, rfl⟩

/-- Claim C8: `convert_quantized` fails with "Not a Quantized Tensor"
exactly when the tensor is not quantized, while `convert` in the
`vTensor`-to-`Tensor` direction is total with no quantization
precondition; on success both produce the same wrapper, carrying the
tensor itself with its sizes and strides unchanged. -/
theorem convert_quantized_error_iff (t : vTensor) :
    ((∃ msg, convert_quantized t = Except.error msg) ↔
      t.is_quantized = false) ∧
    (convert_quantized t = Except.error "Not a Quantized Tensor" ∨
      convert_quantized t = Except.ok (convert t)) ∧
    (convert t).handle = t ∧
    (convert t).tsizes = t.sizes ∧
    (convert t).tstrides = t.strides := by
  cases hq : t.is_quantized_ <;>
    simp [convert_quantized, convert, vTensor.is_quantized, hq]

/-- Claim C9: on a `vTensor` on which no quantization setter has been
called — whether built by the sized constructor or default-constructed —
`get_scale()` returns `1.0` and `get_zero_point()` returns `0`, the
header member-initializer defaults, even while `is_quantized()` is still
false. -/
theorem quantization_default_values (sizes : List Nat) (id : StorageId) :
    (mk_vTensor sizes id).get_scale = 1 ∧
    (mk_vTensor sizes id).get_zero_point = 0 ∧
    (mk_vTensor sizes id).is_quantized = false ∧
    vTensor.empty.get_scale = 1 ∧
    vTensor.empty.get_zero_point = 0 ∧
    vTensor.empty.is_quantized = false :=
  ⟨rfl, rfl, rfl, rfl, rfl, rfl⟩

/-- Claim C10: default (empty) construction of `vTensor` is permitted
(`vTensor() = default` in the header, despite the adjacent comment), it
leaves the shared storage pointer null, and every accessor that
dereferences that pointer — `storage_type()`, `extents()`,
`gpu_numel()`, and the resource accessors behind `requestAccess` — hits
the unguarded null-pointer dereference (the undefined branch, modelled
as `none`) on such a tensor. -/
theorem empty_vTensor_null_view (w : World) (stage : PipelineStageFlags)
    (access : MemoryAccessFlags) :
    vTensor.empty.view_ = none ∧
    vTensor.empty.storage_type w = none ∧
    vTensor.empty.extents w = none ∧
    vTensor.empty.gpu_numel w = none ∧
    vTensor.empty.requestAccess w stage access = none :=
  ⟨rfl, rfl, rfl, rfl, rfl⟩

end VulkanOps
